import Mathlib

/-!
Verification development for the Flask/psycopg2 task application in `src/app.py`.

The embedding models:
  * JSON request bodies (`Body`): each field of the `tasks` table can be
    absent from the body, present with JSON `null`, or present with a string
    (`JVal`).  Python's `dict.get(k)` and `dict.get(k, default)` are modelled
    by `jgetOpt` and `jgetD`.
  * calendar dates (`Date`) with the DB's parse of canonical `YYYY-MM-DD`
    strings (`parseDate`) and Python's `strftime` serialization (`fmtDate`).
  * the `tasks` table as a `Store` (list of rows plus the SERIAL counter).
  * the four request handlers `get_tasks`, `add_task`, `update_task`,
    `delete_task`, line by line from `src/app.py`, each threading a counter
    of connections checked out of `db_pool` (`get_db` increments,
    `release_db` decrements); an exception caught by a handler's `except`
    branch returns without calling `release_db`, exactly as in the source.

psycopg2 interpolates parameters client-side, so every parameter reaches
PostgreSQL as a literal.  A string literal in a date-typed position (the
`COALESCE(%s, due_date)` of the UPDATE, or a date value of the INSERT) is
coerced by `date_in` during parse analysis, before any row is matched: a
string that does not parse as a date — the empty string included — makes
the whole statement raise (`badDateParam`), which the handler's `except`
branch converts to a 500 response without committing and without releasing
the connection.  A statement that survives parse analysis evaluates its
`CASE`/`COALESCE` expressions per taken branch on each matched row.
-/

namespace ToDo

/-- A JSON value occurring in a request body field: `null` or a string. -/
inductive JVal where
  | null : JVal
  | str : String → JVal
deriving DecidableEq

/-- A request body for `POST /api/tasks` or `PUT /api/tasks/{id}`:
each column of the `tasks` table may be absent (`none`), JSON `null`
(`some JVal.null`) or a string (`some (JVal.str s)`). -/
structure Body where
  title : Option JVal
  description : Option JVal
  due_date : Option JVal
  assigned_date : Option JVal
  priority : Option JVal
  status : Option JVal
  notes : Option JVal
deriving DecidableEq

/-- The body `{}` with no keys. -/
def Body.empty : Body := ⟨none, none, none, none, none, none, none⟩

/-- Python `data.get(k)`: absent key and JSON `null` both give `None`. -/
def jgetOpt : Option JVal → Option String
  | none => none
  | some JVal.null => none
  | some (JVal.str s) => some s

/-- Python `data.get(k, d)`: absent key gives the default `d`; a key present
with JSON `null` gives `None`; a string gives the string. -/
def jgetD (v : Option JVal) (d : String) : Option String :=
  match v with
  | none => some d
  | some JVal.null => none
  | some (JVal.str s) => some s

/-- Python `x if x else None` for `x` an optional string: `None` and the
empty string are falsy. -/
def pyTruthy : Option String → Option String
  | none => none
  | some s => if s = "" then none else some s

/-- A calendar date, the value stored in the `DATE` columns. -/
structure Date where
  year : Nat
  month : Nat
  day : Nat
deriving DecidableEq

/-- Gregorian leap-year rule, as used by the DB date type. -/
def isLeap (y : Nat) : Bool :=
  (y % 4 == 0 && y % 100 != 0) || (y % 400 == 0)

/-- Number of days in month `m` of year `y`. -/
def daysInMonth (y m : Nat) : Nat :=
  match m with
  | 2 => if isLeap y then 29 else 28
  | 4 | 6 | 9 | 11 => 30
  | _ => 31

/-- Validity of a date as enforced by the DB date parser: month and day in
range, no year zero (`date_in` rejects it), and the year bounded by the
four digits of the `YYYY-MM-DD` form. -/
def ValidDate (d : Date) : Prop :=
  1 ≤ d.year ∧ 1 ≤ d.month ∧ d.month ≤ 12 ∧ 1 ≤ d.day ∧
    d.day ≤ daysInMonth d.year d.month ∧ d.year ≤ 9999

instance (d : Date) : Decidable (ValidDate d) := by
  unfold ValidDate; infer_instance

/-- Value of a decimal digit character (codepoints 48 through 57). -/
def digVal (c : Char) : Option Nat :=
  if 48 ≤ c.toNat ∧ c.toNat ≤ 57 then some (c.toNat - 48) else none

/-- Decimal digit character for a value below ten. -/
def digChar (n : Nat) : Char :=
  Char.ofNat (48 + n % 10)

/-- Two-digit zero-padded rendering, as `strftime` `%m` / `%d`. -/
def pad2 (n : Nat) : List Char := [digChar (n / 10 % 10), digChar (n % 10)]

/-- Four-digit rendering of the year, as `strftime` `%Y` for years of
four digits. -/
def pad4 (n : Nat) : List Char :=
  [digChar (n / 1000 % 10), digChar (n / 100 % 10), digChar (n / 10 % 10),
    digChar (n % 10)]

/-- The year as printed by glibc `strftime('%Y')`: a plain decimal number
with no zero padding (stored years are bounded by 9999, so at most four
digits). -/
def yearChars (y : Nat) : List Char :=
  if y < 10 then [digChar y]
  else if y < 100 then [digChar (y / 10), digChar (y % 10)]
  else if y < 1000 then
    [digChar (y / 100), digChar (y / 10 % 10), digChar (y % 10)]
  else pad4 y

/-- `date.strftime('%Y-%m-%d')` from the serialization loop of `get_tasks`:
unpadded year, zero-padded month and day. -/
def fmtDate (d : Date) : String :=
  String.mk (yearChars d.year ++ '-' :: (pad2 d.month ++ '-' :: pad2 d.day))

/-- The DB parse of a canonical `YYYY-MM-DD` date string: four digits,
dash, two digits, dash, two digits, with the date in range; anything else
is a parse failure (`none`). -/
def parseDate (s : String) : Option Date :=
  match s.data with
  | [y1, y2, y3, y4, s1, m1, m2, s2, d1, d2] =>
    if s1 = '-' ∧ s2 = '-' then
      match digVal y1, digVal y2, digVal y3, digVal y4, digVal m1, digVal m2,
          digVal d1, digVal d2 with
      | some a, some b, some c, some e, some f, some g, some i, some j =>
        let d0 : Date :=
          ⟨a * 1000 + b * 100 + c * 10 + e, f * 10 + g, i * 10 + j⟩
        if ValidDate d0 then some d0 else none
      | _, _, _, _, _, _, _, _ => none
    else none
  | _ => none

/-- A row of the `tasks` table.  `description` and `notes` are nullable
columns; `title`, `priority`, `status` are `NOT NULL`.  Timestamps are
abstract ticks. -/
structure Task where
  id : Nat
  title : String
  description : Option String
  due_date : Option Date
  assigned_date : Option Date
  priority : String
  status : String
  notes : Option String
  created_at : Nat
  updated_at : Nat
deriving DecidableEq

/-- The `tasks` table plus the state of the `SERIAL` id sequence. -/
structure Store where
  rows : List Task
  nextId : Nat
deriving DecidableEq

/-- The freshly initialized empty table. -/
def Store.empty : Store := ⟨[], 1⟩

/-- A task as serialized by `get_tasks`: date columns rendered to strings
(`None` stays `null`). -/
structure TaskOut where
  id : Nat
  title : String
  description : Option String
  due_date : Option String
  assigned_date : Option String
  priority : String
  status : String
  notes : Option String
  created_at : Nat
  updated_at : Nat
deriving DecidableEq

/-- The serialization loop of `get_tasks`: `if task['due_date']:` is a
truthiness test on a date object (always truthy) or `None` (falsy), so a
present date is rendered with `strftime` and an absent one stays `None`. -/
def taskToJson (t : Task) : TaskOut :=
  { id := t.id, title := t.title, description := t.description,
    due_date := t.due_date.map fmtDate,
    assigned_date := t.assigned_date.map fmtDate,
    priority := t.priority, status := t.status, notes := t.notes,
    created_at := t.created_at, updated_at := t.updated_at }

/-- `SELECT * FROM tasks ORDER BY id;`. -/
def orderById (l : List Task) : List Task :=
  List.insertionSort (fun a b => a.id ≤ b.id) l

/-- The JSON responses produced by the handlers, together with the HTTP
status Flask attaches to each. -/
inductive ApiResult where
  | tasksOk (body : List TaskOut)
  | successOnly
  | successId (id : Nat)
  | notFound (msg : String)
  | serverError (msg : String)
deriving DecidableEq

/-- HTTP status code of a response: `jsonify(...)` alone is 200, the error
returns carry explicit 404 / 500. -/
def ApiResult.status : ApiResult → Nat
  | tasksOk _ => 200
  | successOnly => 200
  | successId _ => 200
  | notFound _ => 404
  | serverError _ => 500

/-- The task list carried by a `tasksOk` response. -/
def ApiResult.tasks : ApiResult → List TaskOut
  | tasksOk l => l
  | _ => []

/-- Handler for `GET /api/tasks` (`get_tasks` in `src/app.py`):
`get_db` checks a connection out of the pool, the `SELECT ... ORDER BY id`
reads the rows, `release_db` returns the connection, and the rows are
serialized.  Returns (response, table, connections checked out). -/
def get_tasks (st : Store) (pool : Nat) : ApiResult × Store × Nat :=
  (ApiResult.tasksOk ((orderById st.rows).map taskToJson), st, pool + 1 - 1)

/-- The date strings of `add_task`'s INSERT parameters: `None` inserts SQL
`NULL`; a string must parse as a date, otherwise the statement raises. -/
def optParse : Option String → Option (Option Date)
  | none => some none
  | some s =>
    match parseDate s with
    | some d => some (some d)
    | none => none

/-- Handler for `POST /api/tasks` (`add_task` in `src/app.py`).
`data['title']` raises `KeyError` when the key is absent; the INSERT raises
on a SQL `NULL` for the `NOT NULL` columns `title`, `priority`, `status`
and on an unparseable date string.  Any exception is caught by the `except`
branch, which returns a 500 response without calling `release_db` and
without committing.  On success the row is inserted with the next SERIAL
id, committed, and the connection released. -/
def add_task (b : Body) (now : Nat) (st : Store) (pool : Nat) :
    ApiResult × Store × Nat :=
  match b.title with
  | none => (ApiResult.serverError "Failed to add task", st, pool + 1)
  | some tv =>
    let titleV : Option String :=
      match tv with
      | JVal.null => none
      | JVal.str s => some s
    match titleV, jgetD b.priority "medium", jgetD b.status "todo" with
    | some title, some prio, some stat =>
      match optParse (pyTruthy (jgetOpt b.due_date)),
          optParse (pyTruthy (jgetOpt b.assigned_date)) with
      | some due, some asg =>
        let t : Task :=
          { id := st.nextId, title := title,
            description := jgetD b.description "",
            due_date := due, assigned_date := asg,
            priority := prio, status := stat,
            notes := jgetD b.notes "",
            created_at := now, updated_at := now }
        (ApiResult.successId st.nextId, ⟨st.rows ++ [t], st.nextId + 1⟩,
          pool + 1 - 1)
      | _, _ => (ApiResult.serverError "Failed to add task", st, pool + 1)
    | _, _, _ => (ApiResult.serverError "Failed to add task", st, pool + 1)

/-- Runtime evaluation, on a statement that survived parse analysis, of
`CASE WHEN p1 = '' THEN NULL ELSE COALESCE(p2, old) END` for a date column,
where `p1` is `data.get(k, '')` and `p2` is `data.get(k)`.  The sentinel
`p1 = ''` can only arise from an omitted key, since a key present with the
empty string is already rejected at parse analysis (`badDateParam`); the
parse-failure arm reports the same statement error (`none`) and is
unreachable behind that guard. -/
def dateUpdate (p1 p2 : Option String) (old : Option Date) :
    Option (Option Date) :=
  if p1 = some "" then some none
  else
    match p2 with
    | none => some old
    | some s =>
      match parseDate s with
      | some d => some (some d)
      | none => none

/-- SQL `COALESCE(p, old)` for a `NOT NULL` text column. -/
def coalesce (p : Option String) (old : String) : String :=
  match p with
  | none => old
  | some s => s

/-- SQL `COALESCE(p, old)` for a nullable text column. -/
def coalesceO (p : Option String) (old : Option String) : Option String :=
  match p with
  | none => old
  | some s => s

/-- The SET clause of `update_task`'s UPDATE applied to one row matching
`WHERE id = task_id`; `none` is a database error raised while evaluating
the SET expressions. -/
def updateRow (task_id : Nat) (b : Body) (now : Nat) (t : Task) :
    Option Task :=
  if t.id = task_id then
    match dateUpdate (jgetD b.due_date "") (jgetOpt b.due_date) t.due_date,
        dateUpdate (jgetD b.assigned_date "") (jgetOpt b.assigned_date)
          t.assigned_date with
    | some newDue, some newAsg =>
      some { t with
        title := coalesce (jgetOpt b.title) t.title,
        description := coalesceO (jgetOpt b.description) t.description,
        due_date := newDue,
        assigned_date := newAsg,
        priority := coalesce (jgetOpt b.priority) t.priority,
        status := coalesce (jgetOpt b.status) t.status,
        notes := coalesceO (jgetOpt b.notes) t.notes,
        updated_at := now }
    | _, _ => none
  else some t

/-- The UPDATE statement applied row by row to the table; `none` when the
statement raises on some matched row. -/
def updateRows (task_id : Nat) (b : Body) (now : Nat) :
    List Task → Option (List Task)
  | [] => some []
  | t :: ts =>
    match updateRow task_id b now t, updateRows task_id b now ts with
    | some t2, some ts2 => some (t2 :: ts2)
    | _, _ => none

/-- A date parameter of the UPDATE as seen at parse analysis: psycopg2
interpolates it as a string literal, and PostgreSQL coerces a literal in a
date-typed position with `date_in` before any row is matched, so a present
string that does not parse as a date — the empty string included — makes
the whole statement raise. -/
def badDateParam (f : Option JVal) : Bool :=
  match jgetOpt f with
  | none => false
  | some s => (parseDate s).isNone

/-- Handler for `PUT /api/tasks/<task_id>` (`update_task` in `src/app.py`).
Parse analysis of the interpolated statement runs first: an unparseable
date literal raises regardless of whether any row matches the id.  A
surviving UPDATE applies the SET clause to every row matching the id.  Any
database error reaches the `except` branch, which returns 500 without
committing and without `release_db`.  `cur.rowcount = 0` (no row matched)
gives the 404 branch, which releases the connection and leaves the table
unchanged; otherwise the change is committed and the connection
released. -/
def update_task (task_id : Nat) (b : Body) (now : Nat) (st : Store)
    (pool : Nat) : ApiResult × Store × Nat :=
  if badDateParam b.due_date || badDateParam b.assigned_date then
    (ApiResult.serverError "Failed to update task", st, pool + 1)
  else
    match updateRows task_id b now st.rows with
    | none => (ApiResult.serverError "Failed to update task", st, pool + 1)
    | some newRows =>
      if (st.rows.filter (fun t => t.id == task_id)).length = 0 then
        (ApiResult.notFound "Task not found", st, pool + 1 - 1)
      else
        (ApiResult.successOnly, ⟨newRows, st.nextId⟩, pool + 1 - 1)

/-- Handler for `DELETE /api/tasks/<task_id>` (`delete_task` in
`src/app.py`): the DELETE removes every row matching the id;
`cur.rowcount = 0` gives the 404 branch; otherwise the deletion is
committed.  Both branches release the connection. -/
def delete_task (task_id : Nat) (st : Store) (pool : Nat) :
    ApiResult × Store × Nat :=
  let remaining := st.rows.filter (fun t => !(t.id == task_id))
  if st.rows.length - remaining.length = 0 then
    (ApiResult.notFound "Task not found", st, pool + 1 - 1)
  else
    (ApiResult.successOnly, ⟨remaining, st.nextId⟩, pool + 1 - 1)

/-! Helper lemmas. -/

theorem digVal_digChar (n : Nat) (h : n < 10) : digVal (digChar n) = some n := by
  interval_cases n <;> rfl

/-- Formatting a valid date whose year has four digits and parsing the
result gives the date back. -/
theorem parseDate_fmtDate (d : Date) (h : ValidDate d) (h4 : 1000 ≤ d.year) :
    parseDate (fmtDate d) = some d := by
  obtain ⟨y, m, dy⟩ := d
  obtain ⟨hy1, hm1, hm2, hd1, hd2, hy⟩ := h
  dsimp only at hy1 hm1 hm2 hd1 hd2 hy h4
  have hdim : daysInMonth y m ≤ 31 := by
    unfold daysInMonth
    split
    · split <;> omega
    all_goals omega
  have hdm : dy ≤ 31 := le_trans hd2 hdim
  have hyc : yearChars y = pad4 y := by
    unfold yearChars
    rw [if_neg (by omega), if_neg (by omega), if_neg (by omega)]
  have hdata : (fmtDate ⟨y, m, dy⟩).data =
      [digChar (y / 1000 % 10), digChar (y / 100 % 10), digChar (y / 10 % 10),
        digChar (y % 10), '-', digChar (m / 10 % 10), digChar (m % 10), '-',
        digChar (dy / 10 % 10), digChar (dy % 10)] := by
    show yearChars y ++ '-' :: (pad2 m ++ '-' :: pad2 dy) = _
    rw [hyc]
    rfl
  have hmod : ∀ k : Nat, k % 10 < 10 := fun k => Nat.mod_lt _ (by omega)
  unfold parseDate
  rw [hdata]
  simp only [digVal_digChar _ (hmod _)]
  have ey : y / 1000 % 10 * 1000 + y / 100 % 10 * 100 + y / 10 % 10 * 10 + y % 10 = y := by
    omega
  have em : m / 10 % 10 * 10 + m % 10 = m := by omega
  have ed : dy / 10 % 10 * 10 + dy % 10 = dy := by omega
  simp only [ey, em, ed]
  simp [ValidDate, hy1, hm1, hm2, hd1, hd2, hy]

/-- A formatted date is never the empty string. -/
theorem fmtDate_ne_empty (d : Date) : fmtDate d ≠ "" := by
  intro hcon
  have hdata := congrArg String.data hcon
  simp [fmtDate, List.append_eq_nil] at hdata

/-- Applying the UPDATE to rows it leaves alone reproduces the table. -/
theorem updateRows_id (task_id : Nat) (b : Body) (now : Nat) (l : List Task)
    (h : ∀ x ∈ l, updateRow task_id b now x = some x) :
    updateRows task_id b now l = some l := by
  induction l with
  | nil => rfl
  | cons a t ih =>
    simp [updateRows, h a (by simp), ih (fun x hx => h x (by simp [hx]))]

instance : IsTotal Task (fun a b => a.id ≤ b.id) :=
  ⟨fun a b => Nat.le_total a.id b.id⟩

instance : IsTrans Task (fun a b => a.id ≤ b.id) :=
  ⟨fun _ _ _ hab hbc => Nat.le_trans hab hbc⟩

/-! Concrete fixtures used by the claim theorems. -/

/-- A stored task with both dates set. -/
def demoTask : Task :=
  { id := 1, title := "Write spec", description := some "",
    due_date := some ⟨2024, 2, 15⟩, assigned_date := some ⟨2024, 3, 1⟩,
    priority := "high", status := "todo", notes := some "",
    created_at := 10, updated_at := 10 }

/-- A one-row table holding `demoTask`. -/
def demoStore : Store := ⟨[demoTask], 2⟩

/-- The body `{status: "done"}`. -/
def statusDoneBody : Body := { Body.empty with status := some (JVal.str "done") }

/-- The body `{title: ""}`. -/
def emptyTitleBody : Body := { Body.empty with title := some (JVal.str "") }

/-- The body `{title: s}`. -/
def titleOnly (s : String) : Body := { Body.empty with title := some (JVal.str s) }

/-- The body `{title: s, due_date: "YYYY-MM-DD"}`. -/
def createWithDue (s : String) (d : Date) : Body :=
  { Body.empty with
    title := some (JVal.str s),
    due_date := some (JVal.str (fmtDate d)) }

/-- The body `{assigned_date: ""}`. -/
def clearAsgBody : Body := { Body.empty with assigned_date := some (JVal.str "") }

/-- The body `{due_date: ""}`. -/
def clearDueBody : Body := { Body.empty with due_date := some (JVal.str "") }

/-- The body `{title: "Retitled"}`. -/
def retitleBody : Body := { Body.empty with title := some (JVal.str "Retitled") }

/-- The body with every field present as JSON `null`. -/
def allNullBody : Body :=
  ⟨some JVal.null, some JVal.null, some JVal.null, some JVal.null,
    some JVal.null, some JVal.null, some JVal.null⟩

/-! Claim theorems. -/

/-- Claim C1: the claim says `update(id, {status: "done"})` changes only
`status` and `updated_at`.  On the code it does not: because
`data.get('due_date', '')` defaults to the empty string when the key is
omitted, the `CASE WHEN %s = '' THEN NULL` branch fires and both
`due_date` and `assigned_date` are cleared to NULL.  This theorem evaluates
the handler at the failing input: a stored task with both dates set,
updated with a body containing only `status`. -/
theorem c1_status_update_clears_dates :
    (update_task 1 statusDoneBody 11 demoStore 0).1 = ApiResult.successOnly ∧
    (update_task 1 statusDoneBody 11 demoStore 0).2.1.rows =
      [{ demoTask with
          status := "done", updated_at := 11,
          due_date := none, assigned_date := none }] := by
  constructor <;> rfl

/-- Claim C2 counterexample: the claim says a create request with an
empty-string title fails and creates no task.  On the code the INSERT
accepts the empty string (it is not SQL NULL), so the request succeeds and
a task is created. -/
theorem c2_empty_title_creates_task :
    (add_task emptyTitleBody 5 Store.empty 0).1 = ApiResult.successId 1 ∧
    (add_task emptyTitleBody 5 Store.empty 0).2.1.rows.length = 1 := by
  constructor <;> rfl

/-- Claim C2 as amended: a create request whose body lacks the `title` key
fails — `data['title']` raises `KeyError`, caught by the catch-all
`except`, giving a 500-class (not 400-class) error — and no task is
created. -/
theorem c2_missing_title_fails (b : Body) (now pool : Nat) (st : Store)
    (h : b.title = none) :
    (add_task b now st pool).1 = ApiResult.serverError "Failed to add task" ∧
    (add_task b now st pool).2.1 = st := by
  constructor <;> simp [add_task, h]

/-- Claim C2 witness: the amended claim at the concrete empty body. -/
theorem c2_missing_title_fails_witness :
    (add_task Body.empty 0 Store.empty 0).1 =
        ApiResult.serverError "Failed to add task" ∧
      (add_task Body.empty 0 Store.empty 0).2.1 = Store.empty :=
  c2_missing_title_fails Body.empty 0 0 Store.empty rfl

/-- Claim C7: a create request supplying only a title takes the defaults:
`description` and `notes` empty, `priority` "medium", `status` "todo",
both dates absent, and the response carries the freshly generated id. -/
theorem c7_create_defaults (s : String) (now pool : Nat) (st : Store) :
    (add_task (titleOnly s) now st pool).1 = ApiResult.successId st.nextId ∧
    (add_task (titleOnly s) now st pool).2.1.rows =
      st.rows ++
        [{ id := st.nextId, title := s, description := some "",
           due_date := none, assigned_date := none, priority := "medium",
           status := "todo", notes := some "", created_at := now,
           updated_at := now }] := by
  constructor <;> rfl

/-- Claim C8: the claim says every code path, error paths included,
releases the pooled connection before the handler returns.  On the code the
`except` branches return the 500 response without calling `release_db`:
a POST with body `{}` acquires a connection (checked-out count 0 becomes 1),
raises `KeyError` on `data['title']`, and returns with the count still 1. -/
theorem c8_connection_leak_on_error :
    (add_task Body.empty 0 Store.empty 0).2.2 = 1 := rfl

/-- Claim C3: the claim says `update(id, {assigned_date: ""})` clears
`assigned_date` to absent (null).  On the code it cannot: psycopg2
interpolates the parameters client-side, so the statement contains
`COALESCE('', assigned_date)`, and PostgreSQL coerces the unknown-type
literal `''` to `date` during parse analysis, which raises before any row
is touched.  The handler's `except` branch turns this into a 500 response:
nothing is cleared, the table is unchanged (and the connection leaks).
The `CASE WHEN %s = '' THEN NULL` pattern shows clearing-by-empty-string
is exactly what the code intends, so the spec is the intent and the code
the slip; the only thing that actually clears a date is omitting the key.
This theorem evaluates the handler at the failing input: the stored task
has `assigned_date` 2024-03-01 and the body is `{assigned_date: ""}`. -/
theorem c3_empty_string_update_errors :
    update_task 1 clearAsgBody 11 demoStore 0 =
      (ApiResult.serverError "Failed to update task", demoStore, 1) := by
  rfl

/-- Claim C10 counterexample: the claim says only the empty string clears a
date.  On the code, an update whose body is `{title: "Retitled"}` — which
contains no empty-string value anywhere — still clears the stored task's
`due_date`, because the omitted date key defaults to the empty-string
sentinel `data.get('due_date', '')` and fires the `CASE ... THEN NULL`
branch.  (A date key actually present with `""` does not clear anything:
it fails at parse analysis, see the C3 theorem.) -/
theorem c10_omission_clears_date :
    (update_task 1 retitleBody 12 demoStore 0).1 = ApiResult.successOnly ∧
    (update_task 1 retitleBody 12 demoStore 0).2.1.rows.map
        Task.due_date = [none] := by
  constructor <;> rfl

/-- Claim C10 as amended: a field present with JSON `null` is treated by
`COALESCE` as "leave unchanged" for every column — title, description,
dates, priority, status, notes — so no field can be cleared via `null` and
only `updated_at` is refreshed.  The claim's "only the empty string clears
a date" is wrong twice over: a present empty string clears nothing (the
statement fails at parse analysis with a 500), and omitting the date key
is what clears it. -/
theorem c10_null_leaves_fields_unchanged (t : Task) (now pool nid : Nat) :
    (update_task t.id allNullBody now ⟨[t], nid⟩ pool).1 =
        ApiResult.successOnly ∧
      (update_task t.id allNullBody now ⟨[t], nid⟩ pool).2.1.rows =
        [{ t with updated_at := now }] := by
  constructor <;>
    simp [update_task, badDateParam, updateRows, updateRow, allNullBody,
      jgetD, jgetOpt, dateUpdate, coalesce, coalesceO]

/-- Claim C4 counterexample: the claim says every update with an unknown
id returns 404.  On the code, PUT /api/tasks/99 with body
`{due_date: ""}` against the one-task store (id 99 unknown) raises at
parse analysis — the interpolated `''` literal cannot be coerced to date —
so the handler returns the 500 error, not 404. -/
theorem c4_unknown_id_bad_date_500 :
    (update_task 99 clearDueBody 0 demoStore 0).1 =
        ApiResult.serverError "Failed to update task" ∧
      (update_task 99 clearDueBody 0 demoStore 0).1 ≠
        ApiResult.notFound "Task not found" := by
  constructor
  · rfl
  · decide

/-- Claim C4 as amended: an update whose id matches no stored task and
whose date fields, where present as strings, are valid dates returns the
404 "Task not found" JSON error and leaves the table unchanged; it never
succeeds as a silent no-op.  (A date field present with a non-date string,
the empty string included, instead fails at parse analysis and yields
500.) -/
theorem c4_update_unknown_id_404 (task_id : Nat) (b : Body) (now pool : Nat)
    (st : Store) (h : ∀ t ∈ st.rows, t.id ≠ task_id)
    (hdue : badDateParam b.due_date = false)
    (hasg : badDateParam b.assigned_date = false) :
    (update_task task_id b now st pool).1 =
        ApiResult.notFound "Task not found" ∧
      (update_task task_id b now st pool).2.1 = st := by
  have hmap : updateRows task_id b now st.rows = some st.rows :=
    updateRows_id task_id b now st.rows
      (fun t ht => by simp [updateRow, h t ht])
  have hfilt : st.rows.filter (fun t => t.id == task_id) = [] := by
    simp only [List.filter_eq_nil_iff]
    intro t ht
    simpa using h t ht
  constructor <;> (unfold update_task; rw [hdue, hasg, hmap]; simp [hfilt])

/-- Claim C4 witness: the theorem applied to a concrete store, an id not
stored in it, and a body with no date parameters. -/
theorem c4_update_unknown_id_404_witness :
    (∀ t ∈ demoStore.rows, t.id ≠ 99) ∧
      badDateParam Body.empty.due_date = false ∧
      badDateParam Body.empty.assigned_date = false ∧
      ((update_task 99 Body.empty 0 demoStore 0).1 =
          ApiResult.notFound "Task not found" ∧
        (update_task 99 Body.empty 0 demoStore 0).2.1 = demoStore) :=
  ⟨by decide, rfl, rfl,
    c4_update_unknown_id_404 99 Body.empty 0 0 demoStore (by decide) rfl rfl⟩

/-- Claim C5: deleting a stored id succeeds, the subsequent task list
contains no task with that id, and a second delete of the same id fails
with the 404 "Task not found" error. -/
theorem c5_delete_removes_then_404 (task_id pool pool2 pool3 : Nat)
    (st : Store) (h : ∃ t ∈ st.rows, t.id = task_id) :
    (delete_task task_id st pool).1 = ApiResult.successOnly ∧
    ((get_tasks (delete_task task_id st pool).2.1 pool2).1).tasks.filter
        (fun o => o.id == task_id) = [] ∧
    (delete_task task_id (delete_task task_id st pool).2.1 pool3).1 =
      ApiResult.notFound "Task not found" := by
  obtain ⟨t, ht, hid⟩ := h
  have hlt : (st.rows.filter (fun u => !(u.id == task_id))).length <
      st.rows.length :=
    List.length_filter_lt_length_iff_exists.mpr ⟨t, ht, by simp [hid]⟩
  have hne : ¬(st.rows.length -
      (st.rows.filter (fun u => !(u.id == task_id))).length = 0) := by
    omega
  refine ⟨?_, ?_, ?_⟩
  · simp [delete_task, hne]
  · simp only [delete_task, hne, if_false, get_tasks, ApiResult.tasks,
      ite_false]
    simp only [List.filter_eq_nil_iff]
    intro o ho
    rw [List.mem_map] at ho
    obtain ⟨u, hu, rfl⟩ := ho
    rw [orderById, List.mem_insertionSort, List.mem_filter] at hu
    simpa [taskToJson] using hu.2
  · simp [delete_task, hne, List.filter_filter, Nat.sub_self]

/-- Claim C5 witness: the theorem applied to the concrete one-task store. -/
theorem c5_delete_removes_then_404_witness :
    (∃ t ∈ demoStore.rows, t.id = 1) ∧
      ((delete_task 1 demoStore 0).1 = ApiResult.successOnly ∧
        ((get_tasks (delete_task 1 demoStore 0).2.1 0).1).tasks.filter
          (fun o => o.id == 1) = [] ∧
        (delete_task 1 (delete_task 1 demoStore 0).2.1 0).1 =
          ApiResult.notFound "Task not found") :=
  ⟨⟨demoTask, by decide, rfl⟩,
    c5_delete_removes_then_404 1 0 0 0 demoStore ⟨demoTask, by decide, rfl⟩⟩

/-- The body `{title: "x", due_date: "0099-02-15"}`. -/
def smallYearBody : Body :=
  { Body.empty with
    title := some (JVal.str "x"),
    due_date := some (JVal.str "0099-02-15") }

/-- Claim C6 counterexample: the claim asserts the exact-string round trip
for every valid `YYYY-MM-DD` string.  `"0099-02-15"` is one — the DB
accepts it and the task is created — but glibc `strftime('%Y')` prints the
year without zero padding, so the list returns `"99-02-15"`, not the
created string. -/
theorem c6_small_year_roundtrip_fails :
    ((get_tasks (add_task smallYearBody 0 Store.empty 0).2.1 0).1).tasks.map
        TaskOut.due_date = [some "99-02-15"] ∧
      (some "99-02-15" : Option String) ≠ some "0099-02-15" := by
  constructor
  · rfl
  · decide

/-- Claim C6 as amended: a task created with `due_date` equal to the
canonical `YYYY-MM-DD` rendering of a valid calendar date whose year has
four digits (1000 through 9999) is returned by the list endpoint with
exactly that string — the store's date parse followed by the API's
`strftime` serialization is the identity on such strings — and a task
created without `due_date` is listed with the date absent (`null`).  For
valid dates with year below 1000 the create succeeds but the year is
serialized without zero padding, so exact string equality fails there. -/
theorem c6_due_date_roundtrip (d : Date) (s : String) (now pool pool2 : Nat)
    (h : ValidDate d) (h4 : 1000 ≤ d.year) :
    (((get_tasks (add_task (createWithDue s d) now Store.empty pool).2.1
        pool2).1).tasks.map TaskOut.due_date = [some (fmtDate d)]) ∧
    (((get_tasks (add_task (titleOnly s) now Store.empty pool).2.1
        pool2).1).tasks.map TaskOut.due_date = [none]) := by
  constructor
  · simp [add_task, createWithDue, Body.empty, jgetOpt, jgetD, pyTruthy,
      fmtDate_ne_empty d, optParse, parseDate_fmtDate d h h4, get_tasks,
      ApiResult.tasks, orderById, Store.empty, List.insertionSort,
      taskToJson]
  · simp [add_task, titleOnly, Body.empty, jgetOpt, jgetD, pyTruthy,
      optParse, get_tasks, ApiResult.tasks, orderById, Store.empty,
      List.insertionSort, taskToJson]

/-- Claim C6 witness: the round trip at the concrete date 2024-02-15. -/
theorem c6_due_date_roundtrip_witness :
    ValidDate ⟨2024, 2, 15⟩ ∧ 1000 ≤ (⟨2024, 2, 15⟩ : Date).year ∧
      ((((get_tasks (add_task
            (createWithDue "Complete project proposal" ⟨2024, 2, 15⟩) 0
            Store.empty 0).2.1 0).1).tasks.map TaskOut.due_date =
          [some (fmtDate ⟨2024, 2, 15⟩)]) ∧
        (((get_tasks (add_task (titleOnly "Complete project proposal") 0
            Store.empty 0).2.1 0).1).tasks.map TaskOut.due_date = [none])) :=
  ⟨by decide, by decide,
    c6_due_date_roundtrip ⟨2024, 2, 15⟩ "Complete project proposal" 0 0 0
      (by decide) (by decide)⟩

/-- Claim C9: the list endpoint on the empty store returns the empty JSON
array with HTTP status 200, not an error; and on any store the returned
tasks are ordered by id ascending (`ORDER BY id`). -/
theorem c9_empty_list_and_sorted (st : Store) (pool pool2 : Nat) :
    (get_tasks Store.empty pool).1 = ApiResult.tasksOk [] ∧
    ((get_tasks Store.empty pool).1).status = 200 ∧
    ((get_tasks st pool2).1).tasks.Pairwise (fun a b => a.id ≤ b.id) := by
  refine ⟨rfl, rfl, ?_⟩
  have hs : (orderById st.rows).Pairwise (fun a b : Task => a.id ≤ b.id) :=
    List.sorted_insertionSort _ st.rows
  have hmapped : ((orderById st.rows).map taskToJson).Pairwise
      (fun a b : TaskOut => a.id ≤ b.id) := by
    rw [List.pairwise_map]
    exact hs.imp (fun hab => hab)
  exact hmapped

end ToDo
